import Mathlib

/-!
Verification of the boutique work-orders management backend.

This file is a shallow embedding of the core logic of the repository
(`app/models.py`, `app/crud.py`, `app/schemas.py`, `app/routers/status.py`,
`app/routers/search.py`, `app/routers/clients.py`) together with proofs of the
behavioural properties stated in the specification.

Modelling conventions:
- Python `datetime` values are modelled as `Nat` timestamps (seconds); one day
  (`timedelta(days=1)`) is 86400 seconds, and `replace(hour=0, minute=0,
  second=0, microsecond=0)` is flooring to a multiple of 86400.
- The monetary columns are SQL `Float`s holding currency amounts; they are
  modelled as exact rationals (`Rat`), which agrees with float arithmetic on
  the comparisons, subtractions and `max` used by the code at the scale of the
  properties proved here.
- SQLAlchemy rows are Lean structures; the database session is an explicit
  `DBState` value threaded through each CRUD function, and a committed
  transaction is the returned state.  Fallible operations return `Except` or
  pair their result with the (possibly unchanged) state.
- Pydantic `exclude_unset=True` partial updates are structures of `Option`
  fields, `none` meaning the field was not supplied.
- Python truthiness tests that the code applies to optional values
  (`if filters.client_id:`, `if client_update.mobile_number:`, and so on) are
  modelled exactly: `some 0` and `some ""` are falsy.
-/

namespace Boutique

/-- The five-valued status enumeration `OrderStatus` from `app/models.py`. -/
inductive OrderStatus where
  | orderPlaced
  | started
  | finished
  | deliveredFullyPaid
  | deliveredPaymentPending
deriving DecidableEq

/-- The display string of each status, exactly as in `app/models.py`
(note the en dash in the payment-pending value). -/
def OrderStatus.value : OrderStatus → String
  | .orderPlaced => "Order Placed"
  | .started => "Started"
  | .finished => "Finished"
  | .deliveredFullyPaid => "Delivered - Fully Paid"
  | .deliveredPaymentPending => "Delivered – Payment Pending"

/-- The test `status in [DELIVERED_FULLY_PAID, DELIVERED_PAYMENT_PENDING]`
used throughout `models.py` and `crud.py`. -/
def isDeliveredStatus (s : OrderStatus) : Bool :=
  s == .deliveredFullyPaid || s == .deliveredPaymentPending

/-- One second-resolution day, `timedelta(days=1)`. -/
def oneDay : Nat := 86400

/-- A row of the `clients` table (`app/models.py`, class `Client`).
The server-managed timestamps are not consulted by any modelled operation and
are elided. -/
structure Client where
  id : Nat
  name : String
  mobile_number : String
  email : Option String
  address : Option String
deriving DecidableEq

/-- A row of the `work_orders` table (`app/models.py`, class `WorkOrder`).
`created_at` is kept because the search endpoint orders by it; `updated_at`
and `order_date` are not consulted by any modelled operation and are elided. -/
structure WorkOrder where
  id : Nat
  client_id : Nat
  expected_delivery_date : Nat
  actual_delivery_date : Option Nat
  description : Option String
  notes : Option String
  status : OrderStatus
  advance_paid : Rat
  total_estimate : Rat
  actual_amount : Rat
  due_cleared : Bool
  created_at : Nat
deriving DecidableEq

/-- Derived property `WorkOrder.is_overdue` (`models.py` lines 78-85):
expected delivery strictly before `now` and status not a delivered state. -/
def is_overdue (o : WorkOrder) (now : Nat) : Bool :=
  decide (o.expected_delivery_date < now) && !(isDeliveredStatus o.status)

/-- Derived property `WorkOrder.due_in_one_day` (`models.py` lines 87-94):
expected delivery in the closed window from `now` to `now + 1 day` and status
not a delivered state. -/
def due_in_one_day (o : WorkOrder) (now : Nat) : Bool :=
  decide (o.expected_delivery_date ≤ now + oneDay) &&
    decide (now ≤ o.expected_delivery_date) &&
    !(isDeliveredStatus o.status)

/-- Derived property `WorkOrder.is_active` (`models.py` lines 96-99). -/
def is_active (o : WorkOrder) : Bool :=
  !(isDeliveredStatus o.status)

/-- Derived property `WorkOrder.remaining_amount` (`models.py` lines 101-107). -/
def remaining_amount (o : WorkOrder) : Rat :=
  if o.actual_amount > 0 then
    max 0 (o.actual_amount - o.advance_paid)
  else
    max 0 (o.total_estimate - o.advance_paid)

/-- Transcription of the remaining-amount formula as the specification words it
in section 3: max(0, actual_amount - advance_paid) if actual_amount > 0, else
max(0, total_estimate - advance_paid).  Used to compare the code against the
spec sentence. -/
def remainingAmountPerSpec (o : WorkOrder) : Rat :=
  if o.actual_amount > 0 then
    max 0 (o.actual_amount - o.advance_paid)
  else
    max 0 (o.total_estimate - o.advance_paid)

/-- C1: the derived remaining_amount agrees with the formula stated in the
spec, is never negative, and on an order with advance_paid = 500 and
actual_amount = 750 it equals 250 (the actual amount takes precedence over the
estimate once nonzero). -/
theorem c1_remaining_amount :
    (∀ o : WorkOrder, remaining_amount o = remainingAmountPerSpec o) ∧
    (∀ o : WorkOrder, 0 ≤ remaining_amount o) ∧
    (∀ o : WorkOrder, o.advance_paid = 500 → o.actual_amount = 750 →
      remaining_amount o = 250) := by
  refine ⟨fun o => rfl, fun o => ?_, fun o h5 h7 => ?_⟩
  · unfold remaining_amount
    split <;> exact le_max_left _ _
  · unfold remaining_amount
    rw [h5, h7]
    norm_num

/-- A concrete order used to witness the scenario part of C1. -/
def c1Order : WorkOrder :=
  { id := 1, client_id := 1, expected_delivery_date := 1000,
    actual_delivery_date := none, description := none, notes := none,
    status := .started, advance_paid := 500, total_estimate := 1200,
    actual_amount := 750, due_cleared := false, created_at := 0 }

/-- Witness for C1 at a concrete order with advance 500 and actual amount 750. -/
theorem c1_remaining_amount_witness :
    c1Order.advance_paid = 500 ∧ c1Order.actual_amount = 750 ∧
    remaining_amount c1Order = 250 :=
  ⟨rfl, rfl, c1_remaining_amount.2.2 c1Order rfl rfl⟩

/-- One entry of the transition table returned by the status router: a dict
with value, label and description fields. -/
structure StatusOption where
  value : String
  label : String
  descr : String
deriving DecidableEq

/-- Embedding of `get_next_status_options` (`app/routers/status.py` lines
117-170): the `workflow_transitions` dict lookup with default `[]`. -/
def get_next_status_options (current_status : String) : List StatusOption :=
  if current_status = "Order Placed" then
    [{ value := OrderStatus.started.value, label := "Started",
       descr := "Begin work on the order" }]
  else if current_status = "Started" then
    [{ value := OrderStatus.finished.value, label := "Finished",
       descr := "Mark work as completed" }]
  else if current_status = "Finished" then
    [{ value := OrderStatus.deliveredFullyPaid.value,
       label := "Delivered - Fully Paid",
       descr := "Order delivered with full payment" },
     { value := OrderStatus.deliveredPaymentPending.value,
       label := "Delivered – Payment Pending",
       descr := "Order delivered but payment pending" }]
  else if current_status = "Delivered – Payment Pending" then
    [{ value := OrderStatus.deliveredFullyPaid.value,
       label := "Delivered - Fully Paid",
       descr := "Update to fully paid status" }]
  else if current_status = "Delivered - Fully Paid" then
    []
  else
    []

/-- C2: next-status options are a pure lookup of the fixed successor sets of
the five-state workflow, returning the empty list for the terminal state and
for any unknown input string. -/
theorem c2_next_options :
    (get_next_status_options "Order Placed").map StatusOption.value =
      ["Started"] ∧
    (get_next_status_options "Started").map StatusOption.value =
      ["Finished"] ∧
    (get_next_status_options "Finished").map StatusOption.value =
      ["Delivered - Fully Paid", "Delivered – Payment Pending"] ∧
    (get_next_status_options "Delivered – Payment Pending").map
        StatusOption.value = ["Delivered - Fully Paid"] ∧
    get_next_status_options "Delivered - Fully Paid" = [] ∧
    (∀ s : String,
      s ∉ ["Order Placed", "Started", "Finished",
           "Delivered – Payment Pending", "Delivered - Fully Paid"] →
      get_next_status_options s = []) := by
  refine ⟨rfl, rfl, rfl, rfl, rfl, fun s hs => ?_⟩
  simp only [List.mem_cons, List.not_mem_nil, or_false, not_or] at hs
  obtain ⟨h1, h2, h3, h4, h5⟩ := hs
  unfold get_next_status_options
  rw [if_neg h1, if_neg h2, if_neg h3, if_neg h4, if_neg h5]

/-- Witness for C2 on a concrete unknown status string. -/
theorem c2_next_options_witness :
    "Cancelled" ∉ ["Order Placed", "Started", "Finished",
      "Delivered – Payment Pending", "Delivered - Fully Paid"] ∧
    get_next_status_options "Cancelled" = [] :=
  ⟨by decide, c2_next_options.2.2.2.2.2 "Cancelled" (by decide)⟩

/-- C5: for every order in a delivered state, is_overdue is false, is_active is
false, and due_in_one_day is false, regardless of the expected delivery date
and the current time. -/
theorem c5_delivered_flags (o : WorkOrder) (now : Nat)
    (h : o.status = .deliveredFullyPaid ∨ o.status = .deliveredPaymentPending) :
    is_overdue o now = false ∧ is_active o = false ∧
    due_in_one_day o now = false := by
  have hd : isDeliveredStatus o.status = true := by
    rcases h with h | h <;> simp [isDeliveredStatus, h]
  refine ⟨?_, ?_, ?_⟩ <;>
    simp [is_overdue, is_active, due_in_one_day, hd]

/-- A concrete delivered order whose expected delivery date is in the past,
used to witness C5. -/
def c5Order : WorkOrder :=
  { id := 2, client_id := 1, expected_delivery_date := 100,
    actual_delivery_date := some 150, description := none, notes := none,
    status := .deliveredPaymentPending, advance_paid := 0, total_estimate := 0,
    actual_amount := 0, due_cleared := false, created_at := 0 }

/-- Witness for C5 at a delivered order that would otherwise be overdue. -/
theorem c5_delivered_flags_witness :
    (c5Order.status = .deliveredFullyPaid ∨
      c5Order.status = .deliveredPaymentPending) ∧
    (is_overdue c5Order 999 = false ∧ is_active c5Order = false ∧
      due_in_one_day c5Order 999 = false) :=
  ⟨Or.inr rfl, c5_delivered_flags c5Order 999 (Or.inr rfl)⟩

/-- The database: the two tables managed by the record store. -/
structure DBState where
  clients : List Client
  work_orders : List WorkOrder
deriving DecidableEq

/-- Autoincrement id for a new clients row. -/
def nextClientId (db : DBState) : Nat :=
  (db.clients.map Client.id).foldr max 0 + 1

/-- Autoincrement id for a new work_orders row. -/
def nextWorkOrderId (db : DBState) : Nat :=
  (db.work_orders.map WorkOrder.id).foldr max 0 + 1

/-- Request body for client creation (`app/schemas.py`, `ClientCreate`). -/
structure ClientCreate where
  name : String
  mobile_number : String
  email : Option String
  address : Option String
deriving DecidableEq

/-- Partial-update body for a client (`app/schemas.py`, `ClientUpdate`);
`none` means the field was not supplied. -/
structure ClientUpdate where
  name : Option String := none
  mobile_number : Option String := none
  email : Option String := none
  address : Option String := none
deriving DecidableEq

/-- Embedding of `crud.get_client`: first row with the given id. -/
def get_client (db : DBState) (client_id : Nat) : Option Client :=
  db.clients.find? (fun c => c.id == client_id)

/-- Embedding of `crud.get_client_by_mobile`: first row with the given mobile
number. -/
def get_client_by_mobile (db : DBState) (mobile_number : String) :
    Option Client :=
  db.clients.find? (fun c => c.mobile_number == mobile_number)

/-- Embedding of `crud.create_client`: inserts a new row and commits.  The
clients table carries a unique constraint on mobile_number
(`models.py` line 27), so the commit fails when a row with the same mobile
number already exists. -/
def create_client (db : DBState) (c : ClientCreate) :
    Except String (Client × DBState) :=
  match get_client_by_mobile db c.mobile_number with
  | some _ => .error "IntegrityError: UNIQUE constraint failed: clients.mobile_number"
  | none =>
      let newClient : Client :=
        { id := nextClientId db, name := c.name,
          mobile_number := c.mobile_number, email := c.email,
          address := c.address }
      .ok (newClient, { db with clients := db.clients ++ [newClient] })

/-- Application of a `ClientUpdate` via `setattr` on the supplied fields. -/
def applyClientUpdate (c : Client) (u : ClientUpdate) : Client :=
  { c with
    name := u.name.getD c.name,
    mobile_number := u.mobile_number.getD c.mobile_number,
    email := match u.email with | some e => some e | none => c.email,
    address := match u.address with | some a => some a | none => c.address }

/-- Embedding of `crud.update_client` (`crud.py` lines 37-46): looks the row
up by id, applies the supplied fields, commits; returns the row or None. -/
def update_client (db : DBState) (client_id : Nat) (u : ClientUpdate) :
    Option Client × DBState :=
  match get_client db client_id with
  | none => (none, db)
  | some c =>
      let c' := applyClientUpdate c u
      (some c',
       { db with
         clients := db.clients.map
           (fun x => if x.id == client_id then applyClientUpdate x u else x) })

/-- Embedding of `crud.delete_client` (`crud.py` lines 48-55) together with
the flush semantics of the surrounding ORM.  The relationship
`Client.work_orders` (`models.py` line 34) declares no delete cascade and the
foreign key `work_orders.client_id` (`models.py` line 48) declares no
ondelete action, so on deleting a client the unit of work sets the
`client_id` of each of its work orders to NULL; that column is declared
`nullable=False`, so the commit fails with an IntegrityError whenever the
client still has work orders.  A client without work orders is deleted and
the function returns True; an unknown id returns False. -/
def delete_client (db : DBState) (client_id : Nat) :
    Except String (Bool × DBState) :=
  match get_client db client_id with
  | none => .ok (false, db)
  | some _ =>
      if db.work_orders.any (fun o => o.client_id == client_id) then
        .error "IntegrityError: NOT NULL constraint failed: work_orders.client_id"
      else
        .ok (true,
          { db with clients := db.clients.filter (fun c => c.id != client_id) })

/-- Embedding of the client-creation endpoint (`app/routers/clients.py` lines
18-44): rejects a duplicate mobile number with a 400 error before calling
`crud.create_client`.  The error case leaves the store unchanged. -/
def create_client_endpoint (db : DBState) (c : ClientCreate) :
    Except String Client × DBState :=
  match get_client_by_mobile db c.mobile_number with
  | some _ => (.error "400: Client with this mobile number already exists", db)
  | none =>
      match create_client db c with
      | .ok (cl, db') => (.ok cl, db')
      | .error e => (.error e, db)

/-- Embedding of the client-update endpoint (`app/routers/clients.py` lines
80-109): when a (truthy) mobile number is supplied and another client already
holds it, rejects with a 400 error before calling `crud.update_client`;
otherwise updates, with a 404 error for an unknown id. -/
def update_client_endpoint (db : DBState) (client_id : Nat)
    (u : ClientUpdate) : Except String Client × DBState :=
  let dup : Bool :=
    match u.mobile_number with
    | some m =>
        if m ≠ "" then
          match get_client_by_mobile db m with
          | some ex => ex.id != client_id
          | none => false
        else false
    | none => false
  if dup then
    (.error "400: Another client with this mobile number already exists", db)
  else
    match update_client db client_id u with
    | (some c, db') => (.ok c, db')
    | (none, db') => (.error "404: Client not found", db')

/-- Partial-update body for a work order (`app/schemas.py`,
`WorkOrderUpdate`); `none` means the field was not supplied. -/
structure WorkOrderUpdate where
  expected_delivery_date : Option Nat := none
  actual_delivery_date : Option Nat := none
  description : Option String := none
  notes : Option String := none
  status : Option OrderStatus := none
  advance_paid : Option Rat := none
  total_estimate : Option Rat := none
  actual_amount : Option Rat := none
  due_cleared : Option Bool := none
deriving DecidableEq

/-- Application of a `WorkOrderUpdate` via `setattr` on the supplied fields. -/
def applyWorkOrderUpdate (o : WorkOrder) (u : WorkOrderUpdate) : WorkOrder :=
  { o with
    expected_delivery_date :=
      u.expected_delivery_date.getD o.expected_delivery_date,
    actual_delivery_date :=
      match u.actual_delivery_date with
      | some d => some d
      | none => o.actual_delivery_date,
    description :=
      match u.description with | some d => some d | none => o.description,
    notes := match u.notes with | some n => some n | none => o.notes,
    status := u.status.getD o.status,
    advance_paid := u.advance_paid.getD o.advance_paid,
    total_estimate := u.total_estimate.getD o.total_estimate,
    actual_amount := u.actual_amount.getD o.actual_amount,
    due_cleared := u.due_cleared.getD o.due_cleared }

/-- Embedding of `crud.get_work_order`: first row with the given id. -/
def get_work_order (db : DBState) (order_id : Nat) : Option WorkOrder :=
  db.work_orders.find? (fun o => o.id == order_id)

/-- Embedding of `crud.update_work_order` (`crud.py` lines 126-135): looks the
row up by id, applies the supplied fields with `setattr`, commits; returns the
updated row or None.  No status-transition check of any kind is performed. -/
def update_work_order (db : DBState) (order_id : Nat) (u : WorkOrderUpdate) :
    Option WorkOrder × DBState :=
  match get_work_order db order_id with
  | none => (none, db)
  | some o =>
      let o' := applyWorkOrderUpdate o u
      (some o',
       { db with
         work_orders := db.work_orders.map
           (fun x =>
             if x.id == order_id then applyWorkOrderUpdate x u else x) })

/-- C3: updating an existing work order with any of the five status values
always succeeds and sets that status directly - the updated row carries the
requested status and is stored, whatever the current status was; the
transition table is never consulted. -/
theorem c3_update_ignores_workflow (db : DBState) (order_id : Nat)
    (o : WorkOrder) (s : OrderStatus)
    (h : db.work_orders.find? (fun x => x.id == order_id) = some o) :
    ∃ db' : DBState,
      update_work_order db order_id { status := some s } =
        (some { o with status := s }, db') ∧
      { o with status := s } ∈ db'.work_orders := by
  refine ⟨{ db with
      work_orders := db.work_orders.map
        (fun x =>
          if x.id == order_id then
            applyWorkOrderUpdate x { status := some s }
          else x) }, ?_, ?_⟩
  · unfold update_work_order get_work_order
    rw [h]
    rfl
  · have hmem : o ∈ db.work_orders := List.mem_of_find?_eq_some h
    have hid := List.find?_some h
    refine List.mem_map.2 ⟨o, hmem, ?_⟩
    rw [if_pos hid]
    rfl

/-- A two-order store used to witness C3: order 7 is already delivered and
fully paid (the terminal state). -/
def c3DB : DBState :=
  { clients := [{ id := 1, name := "Asha", mobile_number := "9876543210",
                  email := none, address := none }],
    work_orders :=
      [{ id := 7, client_id := 1, expected_delivery_date := 500,
         actual_delivery_date := none, description := some "saree blouse",
         notes := none, status := .deliveredFullyPaid, advance_paid := 100,
         total_estimate := 300, actual_amount := 0, due_cleared := false,
         created_at := 10 }] }

/-- Witness for C3: the terminal-state order 7 is reset straight back to
Order Placed, a transition the workflow table does not allow. -/
theorem c3_update_ignores_workflow_witness :
    c3DB.work_orders.find? (fun x => x.id == 7) = some (c3DB.work_orders.get ⟨0, by decide⟩) ∧
    ∃ db' : DBState,
      update_work_order c3DB 7 { status := some .orderPlaced } =
        (some { c3DB.work_orders.get ⟨0, by decide⟩ with status := .orderPlaced }, db') ∧
      { c3DB.work_orders.get ⟨0, by decide⟩ with status := .orderPlaced } ∈ db'.work_orders :=
  ⟨rfl, c3_update_ignores_workflow c3DB 7 _ .orderPlaced rfl⟩

/-- C6 (code bug evidence): a store with one client who has one work order.
The spec and the delete endpoint documentation promise that deleting the
client also deletes its work orders, but the delete fails instead. -/
def c6DB : DBState :=
  { clients := [{ id := 1, name := "Asha", mobile_number := "9876543210",
                  email := none, address := none }],
    work_orders :=
      [{ id := 1, client_id := 1, expected_delivery_date := 500,
         actual_delivery_date := none, description := some "lehenga",
         notes := none, status := .started, advance_paid := 0,
         total_estimate := 0, actual_amount := 0, due_cleared := false,
         created_at := 0 }] }

/-- C6: deleting client 1, who exists and owns work order 1, does not cascade:
because no delete cascade is configured on the relationship or the foreign
key, the flush nulls the non-nullable `client_id` column and the commit fails,
leaving the work order in place. -/
theorem c6_delete_client_no_cascade :
    get_client c6DB 1 ≠ none ∧
    (∃ o ∈ c6DB.work_orders, o.client_id = 1) ∧
    delete_client c6DB 1 =
      .error "IntegrityError: NOT NULL constraint failed: work_orders.client_id" := by
  refine ⟨by decide, ⟨c6DB.work_orders.get ⟨0, by decide⟩, by decide, rfl⟩, rfl⟩

/-- Request body for work-order creation (`app/schemas.py`,
`WorkOrderCreate`): the order fields plus either an existing client id or the
details of a client to create. -/
structure WorkOrderCreate where
  expected_delivery_date : Nat
  description : Option String := none
  notes : Option String := none
  status : OrderStatus := .orderPlaced
  advance_paid : Rat := 0
  total_estimate : Rat := 0
  actual_amount : Rat := 0
  due_cleared : Bool := false
  client_id : Option Nat := none
  client_name : Option String := none
  client_mobile : Option String := none
  client_email : Option String := none
  client_address : Option String := none
deriving DecidableEq

/-- Python truthiness of an optional string: None and the empty string are
falsy. -/
def truthyStr : Option String → Bool
  | some s => s != ""
  | none => false

/-- Python truthiness of an optional integer: None and 0 are falsy. -/
def truthyNat : Option Nat → Bool
  | some n => n != 0
  | none => false

/-- The model validator `WorkOrderCreate.validate_client_info`
(`app/schemas.py` lines 59-66): when client_id is None, both client_name and
client_mobile must be (truthy) present. -/
def validate_client_info (w : WorkOrderCreate) : Bool :=
  match w.client_id with
  | some _ => true
  | none => truthyStr w.client_name && truthyStr w.client_mobile

/-- Embedding of `crud.create_work_order` (`crud.py` lines 66-124).  The
client is resolved first: a truthy client_id that exists is used as is; a
truthy client_id that does not exist falls back to the supplied client
details, reusing a client matched by mobile number or creating a new one, and
raises a ValueError when name or mobile is missing; a falsy client_id goes
straight to the details, where constructing `ClientCreate` with a missing
name or mobile fails pydantic validation.  The order row is then inserted;
`mkWorkOrderRow` is the `models.WorkOrder(...)` construction of `crud.py`
lines 109-119. -/
def mkWorkOrderRow (db : DBState) (w : WorkOrderCreate) (cid now : Nat) :
    WorkOrder :=
  { id := nextWorkOrderId db, client_id := cid,
    expected_delivery_date := w.expected_delivery_date,
    actual_delivery_date := none, description := w.description,
    notes := w.notes, status := w.status, advance_paid := w.advance_paid,
    total_estimate := w.total_estimate, actual_amount := w.actual_amount,
    due_cleared := w.due_cleared, created_at := now }

def create_work_order (db : DBState) (w : WorkOrderCreate) (now : Nat) :
    Except String (WorkOrder × DBState) :=
  let resolved : Except String (Nat × DBState) :=
    if truthyNat w.client_id then
      match w.client_id with
      | some cid =>
          match get_client db cid with
          | some _ => .ok (cid, db)
          | none =>
              match w.client_name, w.client_mobile with
              | some n, some m =>
                  if n != "" && m != "" then
                    match get_client_by_mobile db m with
                    | some existing => .ok (existing.id, db)
                    | none =>
                        match create_client db
                            { name := n, mobile_number := m,
                              email := w.client_email,
                              address := w.client_address } with
                        | .ok (cl, db') => .ok (cl.id, db')
                        | .error e => .error e
                  else
                    .error "ValueError: client id does not exist and insufficient client details provided"
              | _, _ =>
                  .error "ValueError: client id does not exist and insufficient client details provided"
      | none => .error "unreachable"
    else
      match w.client_name, w.client_mobile with
      | some n, some m =>
          if n != "" && m != "" then
            match get_client_by_mobile db m with
            | some existing => .ok (existing.id, db)
            | none =>
                match create_client db
                    { name := n, mobile_number := m,
                      email := w.client_email,
                      address := w.client_address } with
                | .ok (cl, db') => .ok (cl.id, db')
                | .error e => .error e
          else
            .error "ValidationError: client name and mobile number are required"
      | _, _ =>
          .error "ValidationError: client name and mobile number are required"
  match resolved with
  | .error e => .error e
  | .ok (cid, db') =>
      let wo : WorkOrder := mkWorkOrderRow db' w cid now
      .ok (wo, { db' with work_orders := db'.work_orders ++ [wo] })

/-- C9: creating a client whose mobile number is already taken fails and
leaves the store unchanged; and a client update supplying a mobile number
held by a different client fails and leaves the store unchanged. -/
theorem c9_duplicate_mobile_guard :
    (∀ (db : DBState) (c : ClientCreate) (ex : Client),
      ex ∈ db.clients → ex.mobile_number = c.mobile_number →
      ∃ msg, create_client_endpoint db c = (.error msg, db)) ∧
    (∀ (db : DBState) (client_id : Nat) (u : ClientUpdate) (m : String)
        (ex : Client),
      u.mobile_number = some m → m ≠ "" →
      get_client_by_mobile db m = some ex → ex.id ≠ client_id →
      ∃ msg, update_client_endpoint db client_id u = (.error msg, db)) := by
  constructor
  · intro db c ex hmem hmob
    have hfound : get_client_by_mobile db c.mobile_number ≠ none := by
      unfold get_client_by_mobile
      intro hnone
      rw [List.find?_eq_none] at hnone
      exact hnone ex hmem (by simp [hmob])
    unfold create_client_endpoint
    cases hcase : get_client_by_mobile db c.mobile_number with
    | none => exact absurd hcase hfound
    | some _ => exact ⟨_, rfl⟩
  · intro db client_id u m ex hm hmne hfound hid
    refine ⟨"400: Another client with this mobile number already exists", ?_⟩
    simp only [update_client_endpoint, hm, hfound, hmne, ne_eq,
      not_false_eq_true, if_true, bne_iff_ne]
    rw [if_pos hid]

/-- A one-client store used to witness C9. -/
def c9DB : DBState :=
  { clients := [{ id := 1, name := "Asha", mobile_number := "9876543210",
                  email := none, address := none }],
    work_orders := [] }

/-- Witness for C9: re-registering mobile 9876543210 is rejected, and
pointing client 2 at that same number is rejected. -/
theorem c9_duplicate_mobile_guard_witness :
    (∃ msg, create_client_endpoint c9DB
      { name := "Bina", mobile_number := "9876543210", email := none,
        address := none } = (.error msg, c9DB)) ∧
    (∃ msg, update_client_endpoint c9DB 2
      { mobile_number := some "9876543210" } = (.error msg, c9DB)) :=
  ⟨c9_duplicate_mobile_guard.1 c9DB
      { name := "Bina", mobile_number := "9876543210", email := none,
        address := none }
      (c9DB.clients.get ⟨0, by decide⟩) (by decide) rfl,
   c9_duplicate_mobile_guard.2 c9DB 2 { mobile_number := some "9876543210" }
      "9876543210" (c9DB.clients.get ⟨0, by decide⟩) rfl (by decide) rfl
      (by decide)⟩

/-- C10: creating a work order with a client_id that does not exist succeeds
when a client name and mobile number are also supplied - the order is
attached to a client carrying that mobile number (an existing one, or a newly
created one); with the same nonexistent client_id but a missing name or
mobile, it raises the insufficient-details ValueError. -/
theorem c10_create_with_stale_client_id :
    (∀ (db : DBState) (w : WorkOrderCreate) (now cid : Nat) (n m : String),
      w.client_id = some cid → cid ≠ 0 → get_client db cid = none →
      w.client_name = some n → n ≠ "" → w.client_mobile = some m → m ≠ "" →
      ∃ (wo : WorkOrder) (db' : DBState),
        create_work_order db w now = .ok (wo, db') ∧
        ∃ c ∈ db'.clients, c.id = wo.client_id ∧ c.mobile_number = m) ∧
    (∀ (db : DBState) (w : WorkOrderCreate) (now cid : Nat),
      w.client_id = some cid → cid ≠ 0 → get_client db cid = none →
      truthyStr w.client_name = false ∨ truthyStr w.client_mobile = false →
      create_work_order db w now =
        .error "ValueError: client id does not exist and insufficient client details provided") := by
  constructor
  · intro db w now cid n m hcid hcid0 hgc hn hn0 hm hm0
    have htr : truthyNat (some cid) = true := by simp [truthyNat, hcid0]
    have hnm : (n != "" && m != "") = true := by simp [hn0, hm0]
    cases hfind : get_client_by_mobile db m with
    | some existing =>
        have hmob : existing.mobile_number = m := by
          simpa using List.find?_some hfind
        have hmem : existing ∈ db.clients := List.mem_of_find?_eq_some hfind
        refine ⟨mkWorkOrderRow db w existing.id now,
          { db with work_orders :=
              db.work_orders ++ [mkWorkOrderRow db w existing.id now] },
          ?_, existing, hmem, rfl, hmob⟩
        simp [create_work_order, htr, hcid, hgc, hn, hm, hnm, hfind]
    | none =>
        refine ⟨mkWorkOrderRow
            { db with clients := db.clients ++
                [{ id := nextClientId db, name := n, mobile_number := m,
                   email := w.client_email, address := w.client_address }] }
            w (nextClientId db) now,
          { clients := db.clients ++
              [{ id := nextClientId db, name := n, mobile_number := m,
                 email := w.client_email, address := w.client_address }],
            work_orders := db.work_orders ++
              [mkWorkOrderRow
                { db with clients := db.clients ++
                    [{ id := nextClientId db, name := n, mobile_number := m,
                       email := w.client_email,
                       address := w.client_address }] }
                w (nextClientId db) now] },
          ?_,
          { id := nextClientId db, name := n, mobile_number := m,
            email := w.client_email, address := w.client_address },
          List.mem_append_right _ (List.mem_singleton.2 rfl), rfl, rfl⟩
        simp [create_work_order, htr, hcid, hgc, hn, hm, hnm, hfind,
          create_client]
  · intro db w now cid hcid hcid0 hgc hins
    have htr : truthyNat (some cid) = true := by simp [truthyNat, hcid0]
    cases hname : w.client_name with
    | none =>
        cases hmob : w.client_mobile with
        | none => simp [create_work_order, htr, hcid, hgc, hname, hmob]
        | some m => simp [create_work_order, htr, hcid, hgc, hname, hmob]
    | some n =>
        cases hmob : w.client_mobile with
        | none => simp [create_work_order, htr, hcid, hgc, hname, hmob]
        | some m =>
            have hnm : (n != "" && m != "") = false := by
              rcases hins with h | h
              · rw [hname] at h
                simp only [truthyStr] at h
                simp [h]
              · rw [hmob] at h
                simp only [truthyStr] at h
                simp [h]
            simp [create_work_order, htr, hcid, hgc, hname, hmob, hnm]

/-- A store used to witness C10: it has a single client with id 1 and mobile
9876543210, so client id 42 does not exist. -/
def c10DB : DBState :=
  { clients := [{ id := 1, name := "Asha", mobile_number := "9876543210",
                  email := none, address := none }],
    work_orders := [] }

/-- Witness for C10: order creation with the stale client id 42 plus full
client details succeeds and attaches to the client with the supplied mobile
number, while the same stale id with the mobile missing raises the
ValueError. -/
theorem c10_create_with_stale_client_id_witness :
    (∃ (wo : WorkOrder) (db' : DBState),
      create_work_order c10DB
        { expected_delivery_date := 500, client_id := some 42,
          client_name := some "Bina", client_mobile := some "9123456789" }
        7 = .ok (wo, db') ∧
      ∃ c ∈ db'.clients, c.id = wo.client_id ∧
        c.mobile_number = "9123456789") ∧
    create_work_order c10DB
      { expected_delivery_date := 500, client_id := some 42,
        client_name := some "Bina" }
      7 = .error "ValueError: client id does not exist and insufficient client details provided" :=
  ⟨c10_create_with_stale_client_id.1 c10DB
      { expected_delivery_date := 500, client_id := some 42,
        client_name := some "Bina", client_mobile := some "9123456789" }
      7 42 "Bina" "9123456789" rfl (by decide) rfl rfl (by decide) rfl
      (by decide),
   c10_create_with_stale_client_id.2 c10DB
      { expected_delivery_date := 500, client_id := some 42,
        client_name := some "Bina" }
      7 42 rfl (by decide) rfl (Or.inr rfl)⟩

/-- Filter parameters (`app/schemas.py`, `WorkOrderFilter`); overdue_only
defaults to False, every other criterion to absent. -/
structure WorkOrderFilter where
  delivery_date : Option Nat := none
  delivery_window_start : Option Nat := none
  delivery_window_end : Option Nat := none
  overdue_only : Option Bool := some false
  status : Option OrderStatus := none
  client_id : Option Nat := none
deriving DecidableEq

/-- The `delivery_date.replace(hour=0, minute=0, second=0, microsecond=0)`
computation: flooring a timestamp to midnight. -/
def startOfDay (t : Nat) : Nat := t / oneDay * oneDay

/-- The conjunction of criteria applied by `crud.get_filtered_work_orders`
(`crud.py` lines 167-210).  Each criterion guard is the Python truthiness
test the code performs on the filter attribute: a datetime is always truthy,
an enum member is always truthy, but `if filters.client_id:` is false for 0
and `if filters.overdue_only:` is false for False. -/
def matchesFilter (f : WorkOrderFilter) (now : Nat) (o : WorkOrder) : Bool :=
  (match f.delivery_date with
   | some d =>
       decide (startOfDay d ≤ o.expected_delivery_date) &&
       decide (o.expected_delivery_date < startOfDay d + oneDay)
   | none => true) &&
  (match f.delivery_window_start with
   | some s => decide (s ≤ o.expected_delivery_date)
   | none => true) &&
  (match f.delivery_window_end with
   | some e => decide (o.expected_delivery_date ≤ e)
   | none => true) &&
  (match f.status with
   | some s => o.status == s
   | none => true) &&
  (match f.client_id with
   | some c => if c != 0 then o.client_id == c else true
   | none => true) &&
  (match f.overdue_only with
   | some b =>
       if b then
         decide (o.expected_delivery_date < now) &&
           !(isDeliveredStatus o.status)
       else true
   | none => true)

/-- Embedding of `crud.get_filtered_work_orders`: the store filtered by the
conjunction of the supplied criteria. -/
def get_filtered_work_orders (store : List WorkOrder) (f : WorkOrderFilter)
    (now : Nat) : List WorkOrder :=
  store.filter (matchesFilter f now)

theorem dayCriterion_iff (d : Option Nat) (o : WorkOrder) :
    (match d with
     | some t =>
         decide (startOfDay t ≤ o.expected_delivery_date) &&
         decide (o.expected_delivery_date < startOfDay t + oneDay)
     | none => true) = true ↔
    (∀ t, d = some t → startOfDay t ≤ o.expected_delivery_date ∧
      o.expected_delivery_date < startOfDay t + oneDay) := by
  cases d <;> simp

theorem windowStartCriterion_iff (s : Option Nat) (o : WorkOrder) :
    (match s with
     | some t => decide (t ≤ o.expected_delivery_date)
     | none => true) = true ↔
    (∀ t, s = some t → t ≤ o.expected_delivery_date) := by
  cases s <;> simp

theorem windowEndCriterion_iff (e : Option Nat) (o : WorkOrder) :
    (match e with
     | some t => decide (o.expected_delivery_date ≤ t)
     | none => true) = true ↔
    (∀ t, e = some t → o.expected_delivery_date ≤ t) := by
  cases e <;> simp

theorem statusCriterion_iff (s : Option OrderStatus) (o : WorkOrder) :
    (match s with
     | some t => o.status == t
     | none => true) = true ↔
    (∀ t, s = some t → o.status = t) := by
  cases s <;> simp

theorem clientCriterion_iff (c : Option Nat) (o : WorkOrder) :
    (match c with
     | some t => if t != 0 then o.client_id == t else true
     | none => true) = true ↔
    (∀ t, c = some t → t ≠ 0 → o.client_id = t) := by
  cases c with
  | none => simp
  | some t =>
      by_cases ht : t = 0
      · subst ht; simp
      · simp [ht]

theorem overdueCriterion_iff (b : Option Bool) (now : Nat) (o : WorkOrder) :
    (match b with
     | some v =>
         if v then
           decide (o.expected_delivery_date < now) &&
             !(isDeliveredStatus o.status)
         else true
     | none => true) = true ↔
    (b = some true → o.expected_delivery_date < now ∧
      isDeliveredStatus o.status = false) := by
  cases b with
  | none => simp
  | some v => cases v <;> simp

/-- C4 (amended): membership in the filtered result is exactly membership in
the store plus the conjunction of every supplied criterion - the full-day
window for an exact delivery date, inclusive window bounds, status equality,
client-id equality for a supplied nonzero client id (a supplied client id of
0 is treated as omitted, by Python truthiness), and the overdue predicate
when overdue_only is true; omitted criteria impose no constraint.  With only
overdue_only = true the result is exactly the orders with expected delivery
before now whose status is not a delivered state. -/
theorem c4_filter_conjunction :
    (∀ (store : List WorkOrder) (f : WorkOrderFilter) (now : Nat)
        (o : WorkOrder),
      o ∈ get_filtered_work_orders store f now ↔
        o ∈ store ∧
        (∀ d, f.delivery_date = some d →
          startOfDay d ≤ o.expected_delivery_date ∧
          o.expected_delivery_date < startOfDay d + oneDay) ∧
        (∀ s, f.delivery_window_start = some s →
          s ≤ o.expected_delivery_date) ∧
        (∀ e, f.delivery_window_end = some e →
          o.expected_delivery_date ≤ e) ∧
        (∀ s, f.status = some s → o.status = s) ∧
        (∀ c, f.client_id = some c → c ≠ 0 → o.client_id = c) ∧
        (f.overdue_only = some true →
          o.expected_delivery_date < now ∧
          isDeliveredStatus o.status = false)) ∧
    (∀ (store : List WorkOrder) (now : Nat),
      get_filtered_work_orders store { overdue_only := some true } now =
        store.filter (fun o =>
          decide (o.expected_delivery_date < now) &&
            !(isDeliveredStatus o.status))) := by
  constructor
  · intro store f now o
    rw [get_filtered_work_orders, List.mem_filter]
    constructor
    · rintro ⟨hmem, hcond⟩
      rw [matchesFilter] at hcond
      simp only [Bool.and_eq_true] at hcond
      obtain ⟨⟨⟨⟨⟨h1, h2⟩, h3⟩, h4⟩, h5⟩, h6⟩ := hcond
      exact ⟨hmem, (dayCriterion_iff _ _).1 h1,
        (windowStartCriterion_iff _ _).1 h2,
        (windowEndCriterion_iff _ _).1 h3,
        (statusCriterion_iff _ _).1 h4,
        (clientCriterion_iff _ _).1 h5,
        (overdueCriterion_iff _ _ _).1 h6⟩
    · rintro ⟨hmem, h1, h2, h3, h4, h5, h6⟩
      refine ⟨hmem, ?_⟩
      rw [matchesFilter]
      simp only [Bool.and_eq_true]
      exact ⟨⟨⟨⟨⟨(dayCriterion_iff _ _).2 h1,
        (windowStartCriterion_iff _ _).2 h2⟩,
        (windowEndCriterion_iff _ _).2 h3⟩,
        (statusCriterion_iff _ _).2 h4⟩,
        (clientCriterion_iff _ _).2 h5⟩,
        (overdueCriterion_iff _ _ _).2 h6⟩
  · intro store now
    rfl

/-- The order used in the C4 counterexample: its client id is 1. -/
def c4Order : WorkOrder :=
  { id := 1, client_id := 1, expected_delivery_date := 500,
    actual_delivery_date := none, description := none, notes := none,
    status := .started, advance_paid := 0, total_estimate := 0,
    actual_amount := 0, due_cleared := false, created_at := 0 }

/-- The filter used in the C4 counterexample: client_id = 0 is supplied. -/
def c4Filter : WorkOrderFilter := { client_id := some 0 }

/-- C4 counterexample: a supplied client-id criterion of 0 is not combined
into the conjunction - the order with client id 1 is still returned, where
the claim requires client-id equality for every supplied criterion (and
hence an empty result). -/
theorem c4_filter_cex :
    c4Filter.client_id = some 0 ∧ c4Order.client_id ≠ 0 ∧
    get_filtered_work_orders [c4Order] c4Filter 0 = [c4Order] :=
  ⟨rfl, by decide, by decide⟩

/-- Embedding of `crud.get_overdue_work_orders` (`crud.py` lines 212-223). -/
def get_overdue_work_orders (store : List WorkOrder) (now : Nat) :
    List WorkOrder :=
  store.filter (fun o =>
    decide (o.expected_delivery_date < now) && !(isDeliveredStatus o.status))

/-- Embedding of `crud.get_orders_due_in_one_day`
(`crud.py` lines 225-238). -/
def get_orders_due_in_one_day (store : List WorkOrder) (now : Nat) :
    List WorkOrder :=
  store.filter (fun o =>
    decide (now ≤ o.expected_delivery_date) &&
    decide (o.expected_delivery_date ≤ now + oneDay) &&
    !(isDeliveredStatus o.status))

/-- The dashboard summary record (`app/schemas.py`, `DashboardSummary`). -/
structure DashboardStats where
  total_work_orders : Nat
  active_work_orders : Nat
  overdue_work_orders : Nat
  orders_due_in_one_day : Nat
  completed_orders : Nat
  total_revenue : Rat
  pending_payments : Rat
deriving DecidableEq

/-- Embedding of `crud.get_dashboard_stats` (`crud.py` lines 250-294):
counted queries over the store, a SQL SUM for revenue (`scalar() or 0` is 0
on an empty store, as is the sum of an empty list), and a Python loop
accumulating the inline remaining amount over not-due-cleared orders. -/
def get_dashboard_stats (store : List WorkOrder) (now : Nat) :
    DashboardStats :=
  let total_orders := store.length
  let active_orders :=
    (store.filter (fun o => !(isDeliveredStatus o.status))).length
  let overdue_orders := (get_overdue_work_orders store now).length
  let orders_due_today := (get_orders_due_in_one_day store now).length
  let completed_orders :=
    (store.filter (fun o => isDeliveredStatus o.status)).length
  let total_revenue := (store.map WorkOrder.advance_paid).sum
  let pending_orders := store.filter (fun o => o.due_cleared == false)
  let pending_payments := pending_orders.foldl
    (fun acc o =>
      let amount_due :=
        if o.actual_amount > 0 then o.actual_amount else o.total_estimate
      acc + max 0 (amount_due - o.advance_paid)) 0
  { total_work_orders := total_orders,
    active_work_orders := active_orders,
    overdue_work_orders := overdue_orders,
    orders_due_in_one_day := orders_due_today,
    completed_orders := completed_orders,
    total_revenue := total_revenue,
    pending_payments := pending_payments }

theorem foldl_add_eq_sum (f : WorkOrder → Rat) (l : List WorkOrder)
    (init : Rat) :
    l.foldl (fun acc o => acc + f o) init = init + (l.map f).sum := by
  induction l generalizing init with
  | nil => simp
  | cons x xs ih =>
      simp only [List.foldl_cons, List.map_cons, List.sum_cons, ih]
      ring

theorem length_filter_add_length_filter_not (p : WorkOrder → Bool)
    (l : List WorkOrder) :
    (l.filter p).length + (l.filter (fun o => !(p o))).length = l.length := by
  induction l with
  | nil => rfl
  | cons x xs ih =>
      cases hx : p x <;> simp [List.filter_cons, hx] <;> omega

theorem inline_amount_eq_remaining (o : WorkOrder) :
    max 0 ((if o.actual_amount > 0 then o.actual_amount
            else o.total_estimate) - o.advance_paid) = remaining_amount o := by
  by_cases h : o.actual_amount > 0 <;> simp [remaining_amount, h]

/-- C7: the dashboard statistics satisfy the stated identities: revenue is
the sum of advance_paid over all orders; pending payments is the sum of the
derived remaining_amount over orders with due_cleared = false (the inline
per-order computation agreeing with the derived attribute); completed counts
the two delivered sub-states, active the rest, and total = active +
completed. -/
theorem c7_dashboard_stats (store : List WorkOrder) (now : Nat) :
    (get_dashboard_stats store now).total_revenue =
      (store.map WorkOrder.advance_paid).sum ∧
    (∀ o : WorkOrder,
      max 0 ((if o.actual_amount > 0 then o.actual_amount
              else o.total_estimate) - o.advance_paid) = remaining_amount o) ∧
    (get_dashboard_stats store now).pending_payments =
      ((store.filter (fun o => o.due_cleared == false)).map
        remaining_amount).sum ∧
    (get_dashboard_stats store now).completed_orders =
      (store.filter (fun o => isDeliveredStatus o.status)).length ∧
    (get_dashboard_stats store now).active_work_orders =
      (store.filter (fun o => !(isDeliveredStatus o.status))).length ∧
    (get_dashboard_stats store now).total_work_orders =
      (get_dashboard_stats store now).active_work_orders +
        (get_dashboard_stats store now).completed_orders := by
  refine ⟨rfl, inline_amount_eq_remaining, ?_, rfl, rfl, ?_⟩
  · show (store.filter (fun o => o.due_cleared == false)).foldl
        (fun acc o =>
          acc + max 0 ((if o.actual_amount > 0 then o.actual_amount
                        else o.total_estimate) - o.advance_paid)) 0 = _
    rw [foldl_add_eq_sum
      (fun o => max 0 ((if o.actual_amount > 0 then o.actual_amount
                        else o.total_estimate) - o.advance_paid))]
    rw [zero_add]
    congr 1
    exact List.map_congr_left (fun o _ => inline_amount_eq_remaining o)
  · show store.length =
      (store.filter (fun o => !(isDeliveredStatus o.status))).length +
      (store.filter (fun o => isDeliveredStatus o.status)).length
    have := length_filter_add_length_filter_not
      (fun o => isDeliveredStatus o.status) store
    omega

/-- Literal prefix test on character lists: the needle, character for
character, heads the haystack. -/
def listPrefixOf : List Char → List Char → Bool
  | [], _ => true
  | _ :: _, [] => false
  | a :: as, b :: bs => a == b && listPrefixOf as bs

/-- Literal substring test on character lists: the needle occurs contiguously
somewhere in the haystack.  This is the case-insensitive-substring reading
the specification gives of the search, once both sides are lowercased. -/
def listInfixOf (needle : List Char) : List Char → Bool
  | [] => listPrefixOf needle []
  | b :: bs => listPrefixOf needle (b :: bs) || listInfixOf needle bs

/-- The str.lower and SQL LOWER conversion: character-wise ASCII
lowercasing, i.e. String.map Char.toLower. -/
def lowerStr (s : String) : String :=
  ⟨s.data.map Char.toLower⟩

/-- All suffixes of a character list, longest first, ending with []. -/
def tailsList : List Char → List (List Char)
  | [] => [[]]
  | c :: cs => (c :: cs) :: tailsList cs

/-- SQL LIKE pattern matching over characters: a percent sign in the pattern
matches any (possibly empty) character sequence, an underscore matches
exactly one character, and any other pattern character matches itself
literally.  Both sides have already been lowercased by the code
(func.lower on the column, query.lower() in the pattern), which also makes
the ASCII-case-insensitive LIKE of SQLite coincide with literal
comparison. -/
def likeMatch : List Char → List Char → Bool
  | [], s => s.isEmpty
  | p :: ps, s =>
      if p = '%' then (tailsList s).any (fun t => likeMatch ps t)
      else
        match s with
        | [] => false
        | c :: cs => (p == '_' || p == c) && likeMatch ps cs

/-- A column value matched against a LIKE pattern. -/
def sqlLike (s : String) (pattern : List Char) : Bool :=
  likeMatch pattern s.data

/-- The pattern the search endpoint builds at `search.py` line 43: the
f-string interpolation of the lowercased query between two percent signs.
The query is not escaped, so any percent sign or underscore inside it
survives as a live LIKE wildcard. -/
def likePattern (query : String) : List Char :=
  '%' :: (lowerStr query).data ++ ['%']

/-- The SQL expression lower(field) LIKE pattern for a nullable column: NULL
compares as NULL and the row is excluded. -/
def fieldLike (field : Option String) (pattern : List Char) : Bool :=
  match field with
  | none => false
  | some s => sqlLike (lowerStr s) pattern

/-- True when the character list contains no LIKE wildcard, so the pattern
built from it can only match literally. -/
def wildcardFree (l : List Char) : Bool :=
  l.all (fun c => !(c == '%') && !(c == '_'))

/-- The claim-side reading of a search match: the term occurs in the
(nullable) field as a case-insensitive literal substring. -/
def containsTermCI (field : Option String) (query : String) : Bool :=
  match field with
  | none => false
  | some s => listInfixOf (lowerStr query).data (lowerStr s).data

/-- Insertion step of the created_at-descending sort. -/
def insertByCreatedDesc (o : WorkOrder) : List WorkOrder → List WorkOrder
  | [] => [o]
  | x :: xs =>
      if x.created_at ≥ o.created_at then x :: insertByCreatedDesc o xs
      else o :: x :: xs

/-- The ORDER BY created_at DESC step, as an insertion sort. -/
def sortByCreatedDesc : List WorkOrder → List WorkOrder
  | [] => []
  | x :: xs => insertByCreatedDesc x (sortByCreatedDesc xs)

/-- Embedding of the work-order search endpoint
(`app/routers/search.py` lines 14-66): builds the unescaped LIKE pattern
%query.lower()%, inner-joins the orders with their client, keeps the rows
where the pattern matches the lowered client name, client mobile number,
order description or order notes (OR across the four fields), optionally
narrows by status, orders by created_at descending and truncates to the
limit.  The router receives the status as a raw string that the database
layer converts to an enum member before the comparison, so the parameter is
modelled as the converted member. -/
def search_work_orders (clients : List Client) (orders : List WorkOrder)
    (query : String) (status : Option OrderStatus) (limit : Nat) :
    List WorkOrder :=
  let search_term := likePattern query
  let matched := orders.filter (fun o =>
    match clients.find? (fun c => c.id == o.client_id) with
    | none => false
    | some c =>
        sqlLike (lowerStr c.name) search_term ||
        sqlLike (lowerStr c.mobile_number) search_term ||
        fieldLike o.description search_term ||
        fieldLike o.notes search_term)
  let narrowed :=
    match status with
    | some st => matched.filter (fun o => o.status == st)
    | none => matched
  (sortByCreatedDesc narrowed).take limit

theorem mem_insertByCreatedDesc (a o : WorkOrder) (l : List WorkOrder) :
    a ∈ insertByCreatedDesc o l ↔ a = o ∨ a ∈ l := by
  induction l with
  | nil => simp [insertByCreatedDesc]
  | cons x xs ih =>
      by_cases h : x.created_at ≥ o.created_at
      · simp only [insertByCreatedDesc, if_pos h,
          List.mem_cons, ih]
        tauto
      · simp only [insertByCreatedDesc, if_neg h,
          List.mem_cons]

theorem mem_sortByCreatedDesc (a : WorkOrder) (l : List WorkOrder) :
    a ∈ sortByCreatedDesc l ↔ a ∈ l := by
  induction l with
  | nil => simp [sortByCreatedDesc]
  | cons x xs ih =>
      simp only [sortByCreatedDesc,
        mem_insertByCreatedDesc, List.mem_cons, ih]

theorem likeMatch_percent_nil (s : List Char) : likeMatch ['%'] s = true := by
  induction s with
  | nil => rfl
  | cons c cs ih =>
      simp only [likeMatch, tailsList, List.any_cons, if_true] at ih ⊢
      simp only [List.isEmpty_cons, Bool.false_or]
      exact ih

theorem likeMatch_append_percent (p s : List Char) :
    wildcardFree p = true → likeMatch (p ++ ['%']) s = listPrefixOf p s := by
  induction p generalizing s with
  | nil => intro _; simp [listPrefixOf, likeMatch_percent_nil]
  | cons a ps ih =>
      intro hp
      rw [wildcardFree, List.all_cons] at hp
      simp only [Bool.and_eq_true, Bool.not_eq_true', beq_eq_false_iff_ne]
        at hp
      obtain ⟨⟨hap, hau⟩, hps⟩ := hp
      cases s with
      | nil => simp [likeMatch, listPrefixOf, hap]
      | cons c cs =>
          simp only [List.cons_append, likeMatch, if_neg hap, listPrefixOf]
          rw [show (a == '_') = false by simp [hau]]
          rw [Bool.false_or]
          simp only [List.append_eq, ih cs hps]

theorem tailsList_any_prefix (q s : List Char) :
    (tailsList s).any (fun t => listPrefixOf q t) = listInfixOf q s := by
  induction s with
  | nil => simp [tailsList, listInfixOf]
  | cons c cs ih => simp [tailsList, listInfixOf, ih]

/-- For a wildcard-free query, the LIKE pattern the search builds matches a
lowered column value exactly when the lowered query occurs in it as a
literal substring. -/
theorem sqlLike_eq_infix_of_wildcardFree (s query : String)
    (hq : wildcardFree (lowerStr query).data = true) :
    sqlLike s (likePattern query) =
      listInfixOf (lowerStr query).data s.data := by
  show likeMatch ('%' :: ((lowerStr query).data ++ ['%'])) s.data = _
  simp only [likeMatch, if_pos rfl]
  rw [funext (fun t => likeMatch_append_percent (lowerStr query).data t hq)]
  exact tailsList_any_prefix (lowerStr query).data s.data

/-- For a wildcard-free query, a nullable column matches the built pattern
exactly when it contains the lowered query as a literal substring. -/
theorem fieldLike_eq_contains_of_wildcardFree (field : Option String)
    (query : String) (hq : wildcardFree (lowerStr query).data = true) :
    fieldLike field (likePattern query) = containsTermCI field query := by
  cases field with
  | none => rfl
  | some s => exact sqlLike_eq_infix_of_wildcardFree (lowerStr s) query hq

/-- C8 (amended): every order returned by the free-text search matches the
built LIKE pattern - the lowercased term between two percent signs, with any
percent sign or underscore inside the term acting as a live wildcard since
the query is interpolated unescaped - in at least one of the four searched
columns: the client's name or mobile number, or the order's own description
or notes.  When the lowered term contains no wildcard character, this says
exactly that the term occurs as a case-insensitive literal substring of one
of those four fields.  (The claim as frozen named only description and notes
and only literal substring containment.) -/
theorem c8_search_only_matching (clients : List Client)
    (orders : List WorkOrder) (query : String) (status : Option OrderStatus)
    (limit : Nat) (o : WorkOrder)
    (h : o ∈ search_work_orders clients orders query status limit) :
    ∃ c : Client, clients.find? (fun x => x.id == o.client_id) = some c ∧
      (sqlLike (lowerStr c.name) (likePattern query) ||
       sqlLike (lowerStr c.mobile_number) (likePattern query) ||
       fieldLike o.description (likePattern query) ||
       fieldLike o.notes (likePattern query)) = true ∧
      (wildcardFree (lowerStr query).data = true →
        (listInfixOf (lowerStr query).data (lowerStr c.name).data ||
         listInfixOf (lowerStr query).data (lowerStr c.mobile_number).data ||
         containsTermCI o.description query ||
         containsTermCI o.notes query) = true) := by
  have hsorted := List.take_subset limit _ h
  rw [mem_sortByCreatedDesc] at hsorted
  have hmatched : o ∈ orders.filter (fun o =>
      match clients.find? (fun c => c.id == o.client_id) with
      | none => false
      | some c =>
          sqlLike (lowerStr c.name) (likePattern query) ||
          sqlLike (lowerStr c.mobile_number) (likePattern query) ||
          fieldLike o.description (likePattern query) ||
          fieldLike o.notes (likePattern query)) := by
    cases status with
    | none => exact hsorted
    | some st => exact List.mem_of_mem_filter hsorted
  have hcond := (List.mem_filter.1 hmatched).2
  cases hfind : clients.find? (fun c => c.id == o.client_id) with
  | none => rw [hfind] at hcond; exact absurd hcond (by simp)
  | some c =>
      rw [hfind] at hcond
      refine ⟨c, rfl, hcond, fun hwf => ?_⟩
      rw [← sqlLike_eq_infix_of_wildcardFree (lowerStr c.name) query hwf,
        ← sqlLike_eq_infix_of_wildcardFree (lowerStr c.mobile_number) query
          hwf,
        ← fieldLike_eq_contains_of_wildcardFree o.description query hwf,
        ← fieldLike_eq_contains_of_wildcardFree o.notes query hwf]
      exact hcond

/-- The client used in the C8 counterexample: the term saree occurs in the
client name but in no field of the order. -/
def c8Client : Client :=
  { id := 1, name := "Saree Devi", mobile_number := "9876543210",
    email := none, address := none }

/-- The order used in the C8 counterexample: description and notes do not
contain the term saree. -/
def c8Order : WorkOrder :=
  { id := 1, client_id := 1, expected_delivery_date := 500,
    actual_delivery_date := none, description := some "blouse",
    notes := none, status := .started, advance_paid := 0,
    total_estimate := 0, actual_amount := 0, due_cleared := false,
    created_at := 3 }

/-- C8 counterexample: searching for saree returns an order although neither
its description nor its notes contains the term as a substring - the match
is on the client name - so the claim that only description/notes matches are
returned is false. -/
theorem c8_search_cex :
    c8Order ∈ search_work_orders [c8Client] [c8Order] "saree" none 20 ∧
    containsTermCI c8Order.description "saree" = false ∧
    containsTermCI c8Order.notes "saree" = false :=
  ⟨by decide, by decide, by decide⟩

/-- The interpolated query is not escaped, so its LIKE wildcards stay live:
the underscore in bl_use matches the letter o of blouse although bl_use is
not a literal substring of blouse, and the search for bl_use returns the
counterexample order through its description. -/
theorem sqlLike_unescaped_wildcard :
    sqlLike (lowerStr "blouse") (likePattern "bl_use") = true ∧
    listInfixOf (lowerStr "bl_use").data (lowerStr "blouse").data = false ∧
    c8Order ∈ search_work_orders [c8Client] [c8Order] "bl_use" none 20 :=
  ⟨by decide, by decide, by decide⟩

/-- A second order used to witness the amended C8 theorem: here the term
occurs in the notes. -/
def c8Order2 : WorkOrder :=
  { id := 2, client_id := 1, expected_delivery_date := 700,
    actual_delivery_date := none, description := some "lehenga",
    notes := some "Saree border urgent", status := .orderPlaced,
    advance_paid := 0, total_estimate := 0, actual_amount := 0,
    due_cleared := false, created_at := 5 }

/-- Witness for the amended C8 theorem on a concrete search. -/
theorem c8_search_only_matching_witness :
    c8Order2 ∈ search_work_orders [c8Client] [c8Order2] "saree" none 20 ∧
    ∃ c : Client,
      ([c8Client].find? (fun x => x.id == c8Order2.client_id)) = some c ∧
      (sqlLike (lowerStr c.name) (likePattern "saree") ||
       sqlLike (lowerStr c.mobile_number) (likePattern "saree") ||
       fieldLike c8Order2.description (likePattern "saree") ||
       fieldLike c8Order2.notes (likePattern "saree")) = true ∧
      (wildcardFree (lowerStr "saree").data = true →
        (listInfixOf (lowerStr "saree").data (lowerStr c.name).data ||
         listInfixOf (lowerStr "saree").data
           (lowerStr c.mobile_number).data ||
         containsTermCI c8Order2.description "saree" ||
         containsTermCI c8Order2.notes "saree") = true) :=
  ⟨by decide,
   c8_search_only_matching [c8Client] [c8Order2] "saree" none 20 c8Order2
     (by decide)⟩

end Boutique
